import Mathlib

/-!
# Round Lifecycle Engine of the red-or-black voting game: shallow embedding

This file embeds the round lifecycle engine of `server.js` (the red/black
voting game backend) and settles the specification claims about it.

The source file contains two near-identical variants of the backend
concatenated.  The embedding follows variant 1 (the first copy) for each
function, and additionally embeds the parts of variant 2 that differ in a
way the claims depend on (the vote route's leading phase check).

Modelling conventions:
- MongoDB collections (`Round`, `Vote`, verified `Participant` wallets)
  become Lean lists inside one `ServerState` record; `findOne` becomes
  `List.find?` and a mongoose `save` of an existing document replaces every
  entry with the same `roundNumber` key (`saveRound`).
- The mutable module globals `currentGameState` and `serverTimeLeft` become
  fields of `ServerState`; the global `currentPhase` of variant 2 is passed
  as an explicit argument.
- `Math.random()` is modelled by an explicit draw argument: a rational
  `u ∈ [0,1)` for the `Math.random() < 0.5` color choice, and a natural
  number reduced modulo the eligible-voter count for
  `Math.floor(Math.random() * winningVotes.length)`.
- Timestamps (`startTime`, `endTime`, `lastUpdated`, vote `timestamp`) carry
  no game logic relevant to any claim and are omitted from the records.
- A JS `null`/`undefined` field value is `Option.none`.
-/

namespace RedOrBlack

/-- The two vote categories (`color` enum `["red", "black"]` in the schemas). -/
inductive Color where
  | red
  | black
  deriving DecidableEq

/-- A document of the `Vote` collection: `(walletAddress, roundId, color)`.
`roundId` is stored as a string in the source (`currentRound.toString()`). -/
structure Vote where
  walletAddress : String
  roundId : String
  color : Color
  deriving DecidableEq

/-- The `status` enum of the `Round` schema: `["voting", "spinning", "completed"]`. -/
inductive RoundStatus where
  | voting
  | spinning
  | completed
  deriving DecidableEq

/-- The `votes` subdocument of a round: per-color counts, default `{red: 0, black: 0}`. -/
structure Tally where
  red : Nat
  black : Nat
  deriving DecidableEq

/-- A document of the `Round` collection (timestamps omitted). -/
structure Round where
  roundNumber : Nat
  status : RoundStatus
  votes : Tally
  participants : List String
  winningColor : Option Color
  winner : Option String
  prizeAmount : Nat
  deriving DecidableEq

/-- The `GameState` singleton document (timestamps and `isActive` /
`nextRoundStartTime` omitted: no claim reads them). -/
structure GameState where
  currentRound : Nat
  totalPrizesGiven : Nat
  lastWinner : Option String
  lastPrizeAmount : Nat
  totalRoundsPlayed : Nat
  deriving DecidableEq

/-- The whole mutable state of the server: the module-global
`currentGameState` (`none` before `initializeGameState` ran), the MongoDB
collections, and the countdown global `serverTimeLeft`.  `verified` is the
set of wallet addresses with a `Participant` document having
`isVerified: true`. -/
structure ServerState where
  gameState : Option GameState
  rounds : List Round
  votes : List Vote
  verified : List String
  serverTimeLeft : Int
  deriving DecidableEq

/-- `CONFIG.ROUND_DURATION / 1000` of variant 1 (30000 ms default). -/
def ROUND_DURATION_SECS : Int := 30

/-- `Round.findOne({roundNumber: n})`. -/
def findRound (l : List Round) (n : Nat) : Option Round :=
  l.find? (fun r => decide (r.roundNumber = n))

/-- `Round.findOne({roundNumber: n, status: st})`. -/
def findRoundWithStatus (l : List Round) (n : Nat) (st : RoundStatus) : Option Round :=
  l.find? (fun r => decide (r.roundNumber = n ∧ r.status = st))

/-- `Vote.findOne({walletAddress, roundId})`. -/
def findVote (votes : List Vote) (w rid : String) : Option Vote :=
  votes.find? (fun v => decide (v.walletAddress = w ∧ v.roundId = rid))

/-- A mongoose `save()` of an existing round document: the stored document
with the same unique `roundNumber` key is replaced. -/
def saveRound (l : List Round) (r' : Round) : List Round :=
  l.map (fun x => if x.roundNumber = r'.roundNumber then r' else x)

/-- The schema declares `roundNumber` unique: well-formed collections have
pairwise distinct round numbers. -/
abbrev roundsWF (l : List Round) : Prop := (l.map Round.roundNumber).Nodup

/-- The fresh round constructed by `ensureCurrentRound`:
`status: "voting"`, zero tally, no participants, `prizeAmount: 0`. -/
def newRound (n : Nat) : Round :=
  { roundNumber := n, status := .voting, votes := ⟨0, 0⟩, participants := [],
    winningColor := none, winner := none, prizeAmount := 0 }

/-- The reset performed by variant 1's `ensureCurrentRound` on an existing
round whose status is not `"voting"`: status back to voting, votes zeroed,
participants cleared (the `startTime` refresh is not modelled). -/
def resetRound (r : Round) : Round :=
  { r with status := .voting, votes := ⟨0, 0⟩, participants := [] }

/-- Variant 1 `ensureCurrentRound`: create the current round if missing,
otherwise reset it to voting if it is not in the voting status.  The
source reads `currentGameState` unconditionally; it is only called after
`currentGameState` is set, so the `none` branch is unreachable dead state. -/
def ensureCurrentRound1 (s : ServerState) : ServerState :=
  match s.gameState with
  | none => s
  | some gs =>
    match findRound s.rounds gs.currentRound with
    | none => { s with rounds := s.rounds ++ [newRound gs.currentRound] }
    | some r =>
      if r.status ≠ RoundStatus.voting then
        { s with rounds := saveRound s.rounds (resetRound r) }
      else s

/-- `startRoundTimer` (variant 1): clears pending timers and resets the
countdown global to the full voting window. -/
def startRoundTimer (s : ServerState) : ServerState :=
  { s with serverTimeLeft := ROUND_DURATION_SECS }

/-- The `GameState` document created on first start:
`{currentRound: 1, totalPrizesGiven: 0}` with schema defaults. -/
def initialGameState : GameState :=
  { currentRound := 1, totalPrizesGiven := 0, lastWinner := none,
    lastPrizeAmount := 0, totalRoundsPlayed := 0 }

/-- Variant 1 `initializeGameState` (the `startEngine()` of the spec): load
or create the `GameState` document, then `ensureCurrentRound` and
`startRoundTimer`. -/
def initializeGameState1 (s : ServerState) : ServerState :=
  let s1 :=
    match s.gameState with
    | some _ => s
    | none => { s with gameState := some initialGameState }
  startRoundTimer (ensureCurrentRound1 s1)

/-- One tick of every countdown interval in the source:
`timeLeft = Math.max(0, timeLeft - 1)`. -/
def countdownTick (t : Int) : Int := max 0 (t - 1)

/-- The winning-color draw at the end of voting:
`Math.random() < 0.5 ? "red" : "black"`, with the `Math.random()` result
passed in as the rational `u`. -/
def chooseCategory (u : ℚ) : Color :=
  if u < 1 / 2 then Color.red else Color.black

/-- The round update performed by `endVotingPhase` on the current voting
round: record the drawn winning color and move to `"spinning"`. -/
def votingToSpinning (r : Round) (u : ℚ) : Round :=
  { r with winningColor := some (chooseCategory u), status := .spinning }

/-- Variant 1 `endVotingPhase` (without the later `selectWinner` timeout). -/
def endVotingPhase1 (s : ServerState) (u : ℚ) : ServerState :=
  match s.gameState with
  | none => s
  | some gs =>
    match findRoundWithStatus s.rounds gs.currentRound RoundStatus.voting with
    | none => s
    | some r => { s with rounds := saveRound s.rounds (votingToSpinning r u) }

/-- `Vote.find({roundId: round.roundNumber.toString(), color: winningColor})`:
the votes eligible to win, exactly the round's votes for the chosen color. -/
def eligibleVotes (votes : List Vote) (r : Round) : List Vote :=
  votes.filter (fun v =>
    decide (v.roundId = toString r.roundNumber ∧ some v.color = r.winningColor))

/-- `Math.floor(Math.random() * winningVotes.length)` indexing into the
eligible votes; `null` when there are none.  The draw is reduced modulo the
length, which ranges over exactly the indices the source can produce. -/
def pickWinner (elig : List Vote) (draw : Nat) : Option String :=
  if h : 0 < elig.length then
    some (elig.get ⟨draw % elig.length, Nat.mod_lt draw h⟩).walletAddress
  else none

/-- The round update at `Revealing → Completed`:
`currentRound.winner = winner; currentRound.status = "completed"`. -/
def completeRound (r : Round) (w : Option String) : Round :=
  { r with winner := w, status := .completed }

/-- The game-state update at `Revealing → Completed`: `lastWinner = winner`,
`currentRound += 1`, `totalRoundsPlayed += 1` (and nothing else —
in particular `lastPrizeAmount` is not touched here). -/
def completeGameState (gs : GameState) (w : Option String) : GameState :=
  { gs with
      lastWinner := w,
      currentRound := gs.currentRound + 1,
      totalRoundsPlayed := gs.totalRoundsPlayed + 1 }

/-- Variant 1 `selectWinner` (and the identical winner/game-state logic of
variant 2's `performAutomaticSpin`): pick a winner among the eligible votes,
complete the round, and update the game state. -/
def selectWinner1 (s : ServerState) (draw : Nat) : ServerState :=
  match s.gameState with
  | none => s
  | some gs =>
    match findRoundWithStatus s.rounds gs.currentRound RoundStatus.spinning with
    | none => s
    | some r =>
      let winner := pickWinner (eligibleVotes s.votes r) draw
      { s with
          rounds := saveRound s.rounds (completeRound r winner),
          gameState := some (completeGameState gs winner) }

/-- Variant 1 `startNextRound`: `ensureCurrentRound` then `startRoundTimer`. -/
def startNextRound1 (s : ServerState) : ServerState :=
  startRoundTimer (ensureCurrentRound1 s)

/-- The payload guard of the vote route:
`!walletAddress || !color || !["red","black"].includes(color)` rejects. -/
def validVotePayload (w c : String) : Prop :=
  w ≠ "" ∧ (c = "red" ∨ c = "black")

instance (w c : String) : Decidable (validVotePayload w c) := by
  unfold validVotePayload; infer_instance

/-- The color a payload that passed the guard denotes. -/
def parseColor (c : String) : Color :=
  if c = "red" then Color.red else Color.black

/-- `currentRound.votes[color] += 1`. -/
def bumpTally (t : Tally) (col : Color) : Tally :=
  match col with
  | .red => { t with red := t.red + 1 }
  | .black => { t with black := t.black + 1 }

/-- The global `currentPhase` of variant 2
(`'verification' | 'voting' | 'spinning' | 'results'`). -/
inductive Phase2 where
  | verification
  | voting
  | spinning
  | results
  deriving DecidableEq

/-- The rejection reasons of the vote route (both variants). -/
inductive VoteError where
  | phaseNotActive (phase : Phase2)
  | invalidData
  | notVerified
  | alreadyVoted (previousVote : Color)
  | votingNotActive
  | serverError
  deriving DecidableEq

/-- Outcome of a vote request: the success response carries the post-vote
tally and voter count, a rejection carries its reason. -/
inductive CastOutcome where
  | ok (votes : Tally) (totalVoters : Nat)
  | rejected (e : VoteError)
  deriving DecidableEq

/-- The round mutation of a successful vote:
`currentRound.votes[color] += 1` and push the wallet onto `participants`
if absent. -/
def voteUpdatedRound (r : Round) (w c : String) : Round :=
  { r with
      votes := bumpTally r.votes (parseColor c),
      participants :=
        if w ∈ r.participants then r.participants
        else r.participants ++ [w] }

/-- Variant 1 `app.post("/api/vote")`.  The checks run in source order:
payload validity, wallet verified, duplicate vote for the current round,
current round present with status `"voting"`; only then are the vote
document and the round mutated.  Every rejection leaves the state as is.
The `serverError` branch is the JS `TypeError` (caught as a 500 response)
when `currentGameState` is still `null`. -/
def castVote1 (s : ServerState) (w c : String) : ServerState × CastOutcome :=
  if validVotePayload w c then
    if w ∈ s.verified then
      match s.gameState with
      | none => (s, .rejected .serverError)
      | some gs =>
        match findVote s.votes w (toString gs.currentRound) with
        | some v => (s, .rejected (.alreadyVoted v.color))
        | none =>
          match findRoundWithStatus s.rounds gs.currentRound RoundStatus.voting with
          | none => (s, .rejected .votingNotActive)
          | some r =>
            ({ s with
                votes := s.votes ++ [{ walletAddress := w,
                                       roundId := toString gs.currentRound,
                                       color := parseColor c }],
                rounds := saveRound s.rounds (voteUpdatedRound r w c) },
              .ok (voteUpdatedRound r w c).votes
                  (voteUpdatedRound r w c).participants.length)
    else (s, .rejected .notVerified)
  else (s, .rejected .invalidData)

/-- Variant 2 `app.post("/api/vote")`: identical to variant 1 except that it
first rejects when the global `currentPhase` is not `'voting'`. -/
def castVote2 (phase : Phase2) (s : ServerState) (w c : String) :
    ServerState × CastOutcome :=
  if phase ≠ Phase2.voting then (s, .rejected (.phaseNotActive phase))
  else castVote1 s w c

/-- JS truthiness of `round.winner` in the mark-paid guard
(`!round.winner`): `null`/absent and the empty string are falsy. -/
def winnerTruthy : Option String → Bool
  | none => false
  | some a => a ≠ ""

/-- Outcome of `app.post("/api/admin/mark-paid")`. -/
inductive MarkPaidOutcome where
  | ok (winner : String) (amount : Nat)
  | notFound
  | serverError
  deriving DecidableEq

/-- The game-state update of a successful mark-paid request:
`totalPrizesGiven += round.prizeAmount; lastPrizeAmount = round.prizeAmount`. -/
def paidGameState (gs : GameState) (r : Round) : GameState :=
  { gs with
      totalPrizesGiven := gs.totalPrizesGiven + r.prizeAmount,
      lastPrizeAmount := r.prizeAmount }

/-- `app.post("/api/admin/mark-paid")` (identical in both variants): look up
the round, 404 unless it exists with a truthy winner, otherwise add its
prize to `totalPrizesGiven` and overwrite `lastPrizeAmount`. -/
def markPrizePaid (s : ServerState) (roundNumber : Nat) :
    ServerState × MarkPaidOutcome :=
  match findRound s.rounds roundNumber with
  | none => (s, .notFound)
  | some round =>
    if winnerTruthy round.winner then
      match s.gameState with
      | none => (s, .serverError)
      | some gs =>
        ({ s with gameState := some (paidGameState gs round) },
          .ok (round.winner.getD "") round.prizeAmount)
    else (s, .notFound)

/-- `n` consecutive mark-paid requests for the same round. -/
def markPaidIter : Nat → ServerState → Nat → ServerState
  | 0, s, _ => s
  | n + 1, s, rn => markPaidIter n (markPrizePaid s rn).1 rn

/-- The `gameState` part of a broadcast snapshot (`getCurrentGameData`). -/
structure GameStateView where
  currentRound : Nat
  timeLeft : Int
  totalPrizesGiven : Nat
  totalRoundsPlayed : Nat
  lastWinner : Option String
  lastPrizeAmount : Nat
  deriving DecidableEq

/-- The `roundData` part of a broadcast snapshot. -/
structure RoundView where
  status : RoundStatus
  votes : Tally
  participants : Nat
  winningColor : Option Color
  winner : Option String
  prizeAmount : Nat
  deriving DecidableEq

/-- A full snapshot as produced by `getCurrentGameData` (the static `config`
block is omitted). -/
structure Snapshot where
  gameState : GameStateView
  roundData : RoundView
  deriving DecidableEq

/-- Variant 1 `getCurrentGameData`: the snapshot pushed to clients.  When no
round document matches `currentRound` the source substitutes a default view
with `winner: null`.  `none` models the JS `TypeError` on a `null`
`currentGameState`. -/
def getCurrentGameData (s : ServerState) : Option Snapshot :=
  match s.gameState with
  | none => none
  | some gs =>
    let roundData :=
      match findRound s.rounds gs.currentRound with
      | some r =>
        { status := r.status, votes := r.votes,
          participants := r.participants.length,
          winningColor := r.winningColor, winner := r.winner,
          prizeAmount := r.prizeAmount : RoundView }
      | none =>
        { status := .voting, votes := ⟨0, 0⟩, participants := 0,
          winningColor := none, winner := none, prizeAmount := 0 : RoundView }
    some
      { gameState :=
          { currentRound := gs.currentRound, timeLeft := s.serverTimeLeft,
            totalPrizesGiven := gs.totalPrizesGiven,
            totalRoundsPlayed := gs.totalRoundsPlayed,
            lastWinner := gs.lastWinner,
            lastPrizeAmount := gs.lastPrizeAmount },
        roundData := roundData }

/-- `GET /api/history`: the completed rounds (the descending sort and the
limit of 50 are presentation only and not modelled). -/
def historyRounds (s : ServerState) : List Round :=
  s.rounds.filter (fun r => decide (r.status = RoundStatus.completed))

/-! ## Helper lemmas about the collection operations -/

lemma findRound_spec {l : List Round} {n : Nat} {r : Round}
    (h : findRound l n = some r) : r ∈ l ∧ r.roundNumber = n := by
  refine ⟨List.mem_of_find?_eq_some h, ?_⟩
  have := List.find?_some h
  simpa using this

lemma findRoundWithStatus_spec {l : List Round} {n : Nat} {st : RoundStatus}
    {r : Round} (h : findRoundWithStatus l n st = some r) :
    r ∈ l ∧ r.roundNumber = n ∧ r.status = st := by
  refine ⟨List.mem_of_find?_eq_some h, ?_⟩
  have := List.find?_some h
  simpa using this

lemma round_eq_of_WF {l : List Round} {a b : Round} (hWF : roundsWF l)
    (ha : a ∈ l) (hb : b ∈ l) (h : a.roundNumber = b.roundNumber) : a = b :=
  List.inj_on_of_nodup_map hWF ha hb h

lemma findRound_cons (a : Round) (t : List Round) (n : Nat) :
    findRound (a :: t) n
      = if a.roundNumber = n then some a else findRound t n := by
  by_cases ha : a.roundNumber = n
  · simp [findRound, List.find?, ha]
  · simp [findRound, List.find?, ha]

lemma saveRound_cons (a : Round) (t : List Round) (r' : Round) :
    saveRound (a :: t) r'
      = (if a.roundNumber = r'.roundNumber then r' else a) :: saveRound t r' := by
  simp [saveRound]

lemma findRound_exists_of_mem {l : List Round} {r : Round} {n : Nat}
    (hr : r ∈ l) (hn : r.roundNumber = n) :
    ∃ r0, findRound l n = some r0 := by
  cases hfind : findRound l n with
  | some r0 => exact ⟨r0, rfl⟩
  | none =>
    rw [findRound, List.find?_eq_none] at hfind
    have := hfind r hr
    simp [hn] at this

lemma findRound_of_status {l : List Round} {n : Nat} {st : RoundStatus}
    {r : Round} (hWF : roundsWF l) (h : findRoundWithStatus l n st = some r) :
    findRound l n = some r := by
  obtain ⟨hmem, hnum, _⟩ := findRoundWithStatus_spec h
  obtain ⟨r0, hfind⟩ := findRound_exists_of_mem hmem hnum
  obtain ⟨hmem0, hnum0⟩ := findRound_spec hfind
  rw [hfind, round_eq_of_WF hWF hmem0 hmem (hnum0.trans hnum.symm)]

lemma findRound_append_single {l : List Round} {r : Round} {n : Nat}
    (h : findRound l n = none) (hr : r.roundNumber = n) :
    findRound (l ++ [r]) n = some r := by
  induction l with
  | nil => simp [findRound, List.find?, hr]
  | cons a t ih =>
    rw [findRound_cons] at h
    by_cases ha : a.roundNumber = n
    · rw [if_pos ha] at h; exact absurd h (by simp)
    · rw [if_neg ha] at h
      rw [List.cons_append, findRound_cons, if_neg ha]
      exact ih h

lemma findRound_saveRound_self {l : List Round} {r' : Round}
    (h : ∃ r0, findRound l r'.roundNumber = some r0) :
    findRound (saveRound l r') r'.roundNumber = some r' := by
  induction l with
  | nil => obtain ⟨r0, h0⟩ := h; simp [findRound] at h0
  | cons a t ih =>
    rw [saveRound_cons]
    by_cases ha : a.roundNumber = r'.roundNumber
    · rw [if_pos ha, findRound_cons, if_pos rfl]
    · rw [if_neg ha, findRound_cons, if_neg ha]
      obtain ⟨r0, h0⟩ := h
      rw [findRound_cons, if_neg ha] at h0
      exact ih ⟨r0, h0⟩

lemma findRound_saveRound_ne {l : List Round} {r' : Round} {n : Nat}
    (h : n ≠ r'.roundNumber) :
    findRound (saveRound l r') n = findRound l n := by
  induction l with
  | nil => simp [saveRound, findRound]
  | cons a t ih =>
    rw [saveRound_cons, findRound_cons, findRound_cons]
    by_cases ha : a.roundNumber = r'.roundNumber
    · rw [if_pos ha]
      have hn : ¬ r'.roundNumber = n := fun hc => h hc.symm
      rw [if_neg hn, if_neg (ha ▸ hn), ih]
    · rw [if_neg ha]
      by_cases han : a.roundNumber = n
      · rw [if_pos han, if_pos han]
      · rw [if_neg han, if_neg han, ih]

lemma mem_saveRound_self {l : List Round} {r r' : Round} (hr : r ∈ l)
    (hnum : r.roundNumber = r'.roundNumber) : r' ∈ saveRound l r' := by
  rw [saveRound, List.mem_map]
  exact ⟨r, hr, by simp [hnum]⟩

lemma tally_le_bump (t : Tally) (col : Color) :
    t.red ≤ (bumpTally t col).red ∧ t.black ≤ (bumpTally t col).black := by
  cases col <;> simp [bumpTally]

lemma pickWinner_nil (draw : Nat) : pickWinner [] draw = none := by
  simp [pickWinner]

lemma pickWinner_mem {elig : List Vote} (draw : Nat) (h : elig ≠ []) :
    ∃ v ∈ elig, pickWinner elig draw = some v.walletAddress := by
  have hlen : 0 < elig.length := List.length_pos.mpr h
  refine ⟨elig.get ⟨draw % elig.length, Nat.mod_lt draw hlen⟩,
    List.get_mem elig _ _, ?_⟩
  simp [pickWinner, hlen]

/-! ## Helper lemmas about the engine operations -/

lemma ensureCurrentRound1_preserves (s : ServerState) :
    (ensureCurrentRound1 s).gameState = s.gameState
    ∧ (ensureCurrentRound1 s).votes = s.votes
    ∧ (ensureCurrentRound1 s).verified = s.verified
    ∧ (ensureCurrentRound1 s).serverTimeLeft = s.serverTimeLeft := by
  unfold ensureCurrentRound1
  split
  · exact ⟨rfl, rfl, rfl, rfl⟩
  · split
    · exact ⟨rfl, rfl, rfl, rfl⟩
    · split
      · exact ⟨rfl, rfl, rfl, rfl⟩
      · exact ⟨rfl, rfl, rfl, rfl⟩

lemma ensureCurrentRound1_gameState (s : ServerState) :
    (ensureCurrentRound1 s).gameState = s.gameState :=
  (ensureCurrentRound1_preserves s).1

lemma ensureCurrentRound1_create {s : ServerState} {gs : GameState}
    (hgs : s.gameState = some gs)
    (hfind : findRound s.rounds gs.currentRound = none) :
    ensureCurrentRound1 s
      = { s with rounds := s.rounds ++ [newRound gs.currentRound] } := by
  simp only [ensureCurrentRound1, hgs, hfind]

lemma ensureCurrentRound1_reset {s : ServerState} {gs : GameState} {r : Round}
    (hgs : s.gameState = some gs)
    (hfind : findRound s.rounds gs.currentRound = some r)
    (hst : ¬ r.status = RoundStatus.voting) :
    ensureCurrentRound1 s
      = { s with rounds := saveRound s.rounds (resetRound r) } := by
  simp only [ensureCurrentRound1, hgs, hfind, if_pos hst]

lemma ensureCurrentRound1_noop {s : ServerState} {gs : GameState} {r : Round}
    (hgs : s.gameState = some gs)
    (hfind : findRound s.rounds gs.currentRound = some r)
    (hst : r.status = RoundStatus.voting) : ensureCurrentRound1 s = s := by
  simp [ensureCurrentRound1, hgs, hfind, hst]

lemma ensureCurrentRound1_voting {s : ServerState} {gs : GameState}
    (hgs : s.gameState = some gs) :
    ∃ r, findRound (ensureCurrentRound1 s).rounds gs.currentRound = some r
      ∧ r.status = RoundStatus.voting := by
  cases hfind : findRound s.rounds gs.currentRound with
  | none =>
    rw [ensureCurrentRound1_create hgs hfind]
    refine ⟨newRound gs.currentRound, ?_, rfl⟩
    exact findRound_append_single hfind rfl
  | some r =>
    by_cases hst : r.status = RoundStatus.voting
    · rw [ensureCurrentRound1_noop hgs hfind hst]
      exact ⟨r, hfind, hst⟩
    · rw [ensureCurrentRound1_reset hgs hfind hst]
      have hnumr : r.roundNumber = gs.currentRound := (findRound_spec hfind).2
      refine ⟨resetRound r, ?_, rfl⟩
      have hex : ∃ r0, findRound s.rounds (resetRound r).roundNumber = some r0 := by
        show ∃ r0, findRound s.rounds r.roundNumber = some r0
        rw [hnumr]; exact ⟨r, hfind⟩
      have hself := findRound_saveRound_self hex
      show findRound (saveRound s.rounds (resetRound r)) gs.currentRound
        = some (resetRound r)
      rwa [show (resetRound r).roundNumber = gs.currentRound from hnumr] at hself

lemma castVote1_invalid {s : ServerState} {w c : String}
    (h : ¬ validVotePayload w c) :
    castVote1 s w c = (s, .rejected .invalidData) := by
  simp only [castVote1, if_neg h]

lemma castVote1_notVerified {s : ServerState} {w c : String}
    (hv : validVotePayload w c) (hw : w ∉ s.verified) :
    castVote1 s w c = (s, .rejected .notVerified) := by
  simp only [castVote1, if_pos hv, if_neg hw]

lemma castVote1_noGameState {s : ServerState} {w c : String}
    (hv : validVotePayload w c) (hw : w ∈ s.verified)
    (hgs : s.gameState = none) :
    castVote1 s w c = (s, .rejected .serverError) := by
  simp only [castVote1, if_pos hv, if_pos hw, hgs]

lemma castVote1_duplicate {s : ServerState} {w c : String} {gs : GameState}
    {v : Vote} (hv : validVotePayload w c) (hw : w ∈ s.verified)
    (hgs : s.gameState = some gs)
    (hdup : findVote s.votes w (toString gs.currentRound) = some v) :
    castVote1 s w c = (s, .rejected (.alreadyVoted v.color)) := by
  simp only [castVote1, if_pos hv, if_pos hw, hgs, hdup]

lemma castVote1_noRound {s : ServerState} {w c : String} {gs : GameState}
    (hv : validVotePayload w c) (hw : w ∈ s.verified)
    (hgs : s.gameState = some gs)
    (hdup : findVote s.votes w (toString gs.currentRound) = none)
    (hr : findRoundWithStatus s.rounds gs.currentRound RoundStatus.voting
      = none) :
    castVote1 s w c = (s, .rejected .votingNotActive) := by
  simp only [castVote1, if_pos hv, if_pos hw, hgs, hdup, hr]

lemma castVote1_success {s : ServerState} {w c : String} {gs : GameState}
    {r : Round} (hv : validVotePayload w c) (hw : w ∈ s.verified)
    (hgs : s.gameState = some gs)
    (hdup : findVote s.votes w (toString gs.currentRound) = none)
    (hr : findRoundWithStatus s.rounds gs.currentRound RoundStatus.voting
      = some r) :
    castVote1 s w c
      = ({ s with
            votes := s.votes ++ [{ walletAddress := w,
                                   roundId := toString gs.currentRound,
                                   color := parseColor c }],
            rounds := saveRound s.rounds (voteUpdatedRound r w c) },
         .ok (voteUpdatedRound r w c).votes
             (voteUpdatedRound r w c).participants.length) := by
  simp only [castVote1, if_pos hv, if_pos hw, hgs, hdup, hr]

/-- A vote request either leaves the state untouched (any rejection) or
performs exactly the vote-append / round-save mutation on the current
voting round. -/
lemma castVote1_cases (s : ServerState) (w c : String) :
    (castVote1 s w c).1 = s
    ∨ ∃ gs r, s.gameState = some gs
        ∧ findRoundWithStatus s.rounds gs.currentRound RoundStatus.voting
            = some r
        ∧ (castVote1 s w c).1.rounds
            = saveRound s.rounds (voteUpdatedRound r w c) := by
  by_cases hv : validVotePayload w c
  · by_cases hw : w ∈ s.verified
    · cases hgs : s.gameState with
      | none => left; rw [castVote1_noGameState hv hw hgs]
      | some gs =>
        cases hdup : findVote s.votes w (toString gs.currentRound) with
        | some v => left; rw [castVote1_duplicate hv hw hgs hdup]
        | none =>
          cases hr : findRoundWithStatus s.rounds gs.currentRound
              RoundStatus.voting with
          | none => left; rw [castVote1_noRound hv hw hgs hdup hr]
          | some r =>
            right
            exact ⟨gs, r, rfl, hr, by rw [castVote1_success hv hw hgs hdup hr]⟩
    · left; rw [castVote1_notVerified hv hw]
  · left; rw [castVote1_invalid hv]

lemma startRoundTimer_eta {s : ServerState}
    (h : s.serverTimeLeft = ROUND_DURATION_SECS) : startRoundTimer s = s := by
  cases s
  simp_all [startRoundTimer]

lemma selectWinner1_eq {s : ServerState} {gs : GameState} {r : Round}
    {draw : Nat} (hgs : s.gameState = some gs)
    (hfind : findRoundWithStatus s.rounds gs.currentRound RoundStatus.spinning
      = some r) :
    selectWinner1 s draw =
      { s with
          rounds := saveRound s.rounds
            (completeRound r (pickWinner (eligibleVotes s.votes r) draw)),
          gameState := some
            (completeGameState gs
              (pickWinner (eligibleVotes s.votes r) draw)) } := by
  simp only [selectWinner1, hgs, hfind]

lemma findRound_saveRound_update {l : List Round} {r r' : Round} {n : Nat}
    (hfind : findRound l n = some r) (hnum : r'.roundNumber = n) :
    findRound (saveRound l r') n = some r' := by
  have hex : ∃ r0, findRound l r'.roundNumber = some r0 :=
    ⟨r, by rw [hnum]; exact hfind⟩
  have hself := findRound_saveRound_self hex
  rwa [hnum] at hself

lemma getCurrentGameData_lastWinner {s : ServerState} {gs : GameState}
    (hgs : s.gameState = some gs) :
    ∃ snap, getCurrentGameData s = some snap
      ∧ snap.gameState.lastWinner = gs.lastWinner := by
  simp only [getCurrentGameData, hgs]
  exact ⟨_, rfl, rfl⟩

lemma markPrizePaid_noRound {s : ServerState} {rn : Nat}
    (h : findRound s.rounds rn = none) :
    markPrizePaid s rn = (s, .notFound) := by
  simp only [markPrizePaid, h]

lemma markPrizePaid_noWinner {s : ServerState} {rn : Nat} {r : Round}
    (h : findRound s.rounds rn = some r) (hw : r.winner = none) :
    markPrizePaid s rn = (s, .notFound) := by
  simp [markPrizePaid, h, hw, winnerTruthy]

lemma markPrizePaid_success {s : ServerState} {rn : Nat} {r : Round}
    {gs : GameState} {w : String} (hgs : s.gameState = some gs)
    (h : findRound s.rounds rn = some r) (hw : r.winner = some w)
    (hne : w ≠ "") :
    markPrizePaid s rn
      = ({ s with gameState := some (paidGameState gs r) },
          .ok w r.prizeAmount) := by
  simp [markPrizePaid, h, hw, winnerTruthy, hne, hgs]

lemma markPaidIter_total : ∀ (n : Nat) {s : ServerState} {rn : Nat}
    {gs : GameState} {r : Round} {w : String},
    s.gameState = some gs → findRound s.rounds rn = some r →
    r.winner = some w → w ≠ "" →
    ∃ gsN, (markPaidIter n s rn).gameState = some gsN
      ∧ gsN.totalPrizesGiven = gs.totalPrizesGiven + n * r.prizeAmount
      ∧ (n = 0 → gsN = gs)
      ∧ (0 < n → gsN.lastPrizeAmount = r.prizeAmount) := by
  intro n
  induction n with
  | zero =>
    intro s rn gs r w hgs hr hw hne
    exact ⟨gs, hgs, by simp, fun _ => rfl, fun h => absurd h (by simp)⟩
  | succ n ih =>
    intro s rn gs r w hgs hr hw hne
    have hstep := markPrizePaid_success hgs hr hw hne
    have hs1 : (markPrizePaid s rn).1
        = { s with gameState := some (paidGameState gs r) } := by rw [hstep]
    have hgs1 : (markPrizePaid s rn).1.gameState = some (paidGameState gs r) := by
      rw [hs1]
    have hr1 : findRound (markPrizePaid s rn).1.rounds rn = some r := by
      rw [hs1]; exact hr
    obtain ⟨gsN, h1, h2, h3, h4⟩ := ih hgs1 hr1 hw hne
    refine ⟨gsN, h1, ?_, fun h => absurd h (Nat.succ_ne_zero n), ?_⟩
    · rw [h2]
      show gs.totalPrizesGiven + r.prizeAmount + n * r.prizeAmount
        = gs.totalPrizesGiven + (n + 1) * r.prizeAmount
      ring
    · intro _
      rcases Nat.eq_zero_or_pos n with hn0 | hnpos
      · rw [h3 hn0]; rfl
      · exact h4 hnpos

lemma initializeGameState1_spec (s : ServerState) :
    ∃ gs r, (initializeGameState1 s).gameState = some gs
      ∧ findRound (initializeGameState1 s).rounds gs.currentRound = some r
      ∧ r.status = RoundStatus.voting
      ∧ (initializeGameState1 s).serverTimeLeft = ROUND_DURATION_SECS := by
  cases hgs : s.gameState with
  | some g =>
    have hun : initializeGameState1 s
        = startRoundTimer (ensureCurrentRound1 s) := by
      simp only [initializeGameState1, hgs]
    obtain ⟨r, hr, hst⟩ := ensureCurrentRound1_voting hgs
    refine ⟨g, r, ?_, ?_, hst, ?_⟩
    · rw [hun]
      show (ensureCurrentRound1 s).gameState = some g
      rw [ensureCurrentRound1_gameState]; exact hgs
    · rw [hun]; exact hr
    · rw [hun]; rfl
  | none =>
    have hun : initializeGameState1 s
        = startRoundTimer (ensureCurrentRound1
            { s with gameState := some initialGameState }) := by
      simp only [initializeGameState1, hgs]
    obtain ⟨r, hr, hst⟩ := ensureCurrentRound1_voting
      (show ({ s with gameState := some initialGameState }
        : ServerState).gameState = some initialGameState from rfl)
    refine ⟨initialGameState, r, ?_, ?_, hst, ?_⟩
    · rw [hun]
      show (ensureCurrentRound1
        { s with gameState := some initialGameState }).gameState
        = some initialGameState
      rw [ensureCurrentRound1_gameState]
    · rw [hun]; exact hr
    · rw [hun]; rfl

lemma initializeGameState1_idem (s : ServerState) :
    initializeGameState1 (initializeGameState1 s) = initializeGameState1 s := by
  obtain ⟨gs, r, hgs, hr, hst, htime⟩ := initializeGameState1_spec s
  have key : ∀ t : ServerState, t.gameState = some gs →
      findRound t.rounds gs.currentRound = some r →
      t.serverTimeLeft = ROUND_DURATION_SECS →
      initializeGameState1 t = t := by
    intro t hgs' hr' htime'
    have hun : initializeGameState1 t
        = startRoundTimer (ensureCurrentRound1 t) := by
      simp only [initializeGameState1, hgs']
    rw [hun, ensureCurrentRound1_noop hgs' hr' hst, startRoundTimer_eta htime']
  exact key _ hgs hr htime

lemma initializeGameState1_fresh {s : ServerState} (hgs : s.gameState = none)
    (hr : s.rounds = []) :
    (initializeGameState1 s).gameState = some initialGameState
    ∧ (initializeGameState1 s).rounds = [newRound 1] := by
  have hun : initializeGameState1 s
      = startRoundTimer (ensureCurrentRound1
          { s with gameState := some initialGameState }) := by
    simp only [initializeGameState1, hgs]
  have hfind : findRound
      ({ s with gameState := some initialGameState } : ServerState).rounds
      initialGameState.currentRound = none := by
    show findRound s.rounds 1 = none
    rw [hr]; rfl
  have hcreate := ensureCurrentRound1_create
    (show ({ s with gameState := some initialGameState }
      : ServerState).gameState = some initialGameState from rfl) hfind
  rw [hun, hcreate]
  constructor
  · rfl
  · show s.rounds ++ [newRound 1] = [newRound 1]
    rw [hr]; rfl

/-! ## Claim C2: precondition order of the vote route -/

/-- Game state used for the C2 scenarios. -/
def gsC2 : GameState :=
  { currentRound := 1, totalPrizesGiven := 0, lastWinner := none,
    lastPrizeAmount := 0, totalRoundsPlayed := 0 }

/-- A state whose current round has already left voting (status
`"spinning"`), with wallet `"X"` verified and already recorded as a voter. -/
def stateC2 : ServerState :=
  { gameState := some gsC2,
    rounds := [{ roundNumber := 1, status := .spinning, votes := ⟨1, 0⟩,
                 participants := ["X"], winningColor := some .red,
                 winner := none, prizeAmount := 0 }],
    votes := [{ walletAddress := "X", roundId := "1", color := .red }],
    verified := ["X"],
    serverTimeLeft := 0 }

/-- C2 (counterexample): the claim says the round-is-active-and-Voting
precondition is checked first, so its failure should determine the
rejection reason.  In `stateC2` no round is in voting status, yet a vote
with the invalid category `"purple"` is rejected with the invalid-data
reason, not the voting-not-active reason: the category check runs first. -/
theorem castVote_category_checked_before_round :
    findRoundWithStatus stateC2.rounds 1 RoundStatus.voting = none
    ∧ (castVote1 stateC2 "X" "purple").2
        = CastOutcome.rejected VoteError.invalidData
    ∧ VoteError.invalidData ≠ VoteError.votingNotActive := by
  decide

/-- C2 (amended): for every vote request the preconditions are checked in
this order, first failure determining the rejection: payload validity
(category one of the two valid ones), wallet verified, voter has not
already voted this round, current round exists with status Voting; variant
2 prepends a check that the global phase is `'voting'` and otherwise
behaves as variant 1. -/
theorem castVote_check_order :
    ∀ (s : ServerState) (w c : String),
    (¬ validVotePayload w c →
        castVote1 s w c = (s, .rejected .invalidData))
    ∧ (validVotePayload w c → w ∉ s.verified →
        castVote1 s w c = (s, .rejected .notVerified))
    ∧ (∀ gs v, validVotePayload w c → w ∈ s.verified →
        s.gameState = some gs →
        findVote s.votes w (toString gs.currentRound) = some v →
        castVote1 s w c = (s, .rejected (.alreadyVoted v.color)))
    ∧ (∀ gs, validVotePayload w c → w ∈ s.verified →
        s.gameState = some gs →
        findVote s.votes w (toString gs.currentRound) = none →
        findRoundWithStatus s.rounds gs.currentRound RoundStatus.voting
          = none →
        castVote1 s w c = (s, .rejected .votingNotActive))
    ∧ (∀ phase, phase ≠ Phase2.voting →
        castVote2 phase s w c = (s, .rejected (.phaseNotActive phase)))
    ∧ castVote2 Phase2.voting s w c = castVote1 s w c := by
  intro s w c
  refine ⟨castVote1_invalid, castVote1_notVerified,
    fun gs v hv hw hgs hdup => castVote1_duplicate hv hw hgs hdup,
    fun gs hv hw hgs hdup hr => castVote1_noRound hv hw hgs hdup hr,
    fun phase hph => by simp only [castVote2, if_pos hph], ?_⟩
  simp [castVote2]

/-- C2 (witness): the first conjunct of the order theorem at a concrete
invalid-category request. -/
theorem castVote_check_order_witness :
    castVote1 stateC2 "X" "purple"
      = (stateC2, .rejected .invalidData) :=
  (castVote_check_order stateC2 "X" "purple").1 (by decide)

/-! ## Claim C3: tally monotone / frozen after Voting -/

/-- Game state used for the C3 counterexample. -/
def gsC3 : GameState :=
  { currentRound := 1, totalPrizesGiven := 0, lastWinner := none,
    lastPrizeAmount := 0, totalRoundsPlayed := 0 }

/-- A state whose current round is in `"spinning"` with one recorded red
vote, as after a crash between the voting end and the winner selection. -/
def stateC3 : ServerState :=
  { gameState := some gsC3,
    rounds := [{ roundNumber := 1, status := .spinning, votes := ⟨1, 0⟩,
                 participants := ["X"], winningColor := some .red,
                 winner := none, prizeAmount := 0 }],
    votes := [{ walletAddress := "X", roundId := "1", color := .red }],
    verified := ["X"],
    serverTimeLeft := 0 }

/-- C3 (counterexample): a round that has left Voting (status spinning,
red tally 1) has its tally reset to 0 by `ensureCurrentRound` (variant 1),
so the per-category tally does decrease and is not frozen after the round
leaves Voting. -/
theorem ensureCurrentRound_reset_decreases_tally :
    (findRound stateC3.rounds 1).map Round.status = some RoundStatus.spinning
    ∧ (findRound stateC3.rounds 1).map (fun r => r.votes.red) = some 1
    ∧ (findRound (ensureCurrentRound1 stateC3).rounds 1).map
        (fun r => r.votes.red) = some 0
    ∧ (1 : Nat) ≠ 0 := by
  decide

/-- C3 (amended): vote casting never decreases any round's per-category
tally and never changes the tally of a round that is not in Voting; however
`ensureCurrentRound` (variant 1) resets the current round to Voting with a
zero tally whenever it exists with a non-Voting status, so the tally is
only monotone and frozen with respect to the vote operation, not to
re-initialization. -/
theorem castVote_tally_monotone :
    ∀ (s : ServerState) (w c : String) (n : Nat), roundsWF s.rounds →
    (∀ r r', findRound s.rounds n = some r →
        findRound (castVote1 s w c).1.rounds n = some r' →
        r.votes.red ≤ r'.votes.red ∧ r.votes.black ≤ r'.votes.black
        ∧ (¬ r.status = RoundStatus.voting → r' = r))
    ∧ (∀ gs r, s.gameState = some gs →
        findRound s.rounds gs.currentRound = some r →
        ¬ r.status = RoundStatus.voting →
        findRound (ensureCurrentRound1 s).rounds gs.currentRound
            = some (resetRound r)
        ∧ (resetRound r).votes = ⟨0, 0⟩) := by
  intro s w c n hWF
  constructor
  · intro r r' hr hr'
    rcases castVote1_cases s w c with heq | ⟨gs, rv, hgs, hrv, heq⟩
    · rw [heq, hr] at hr'
      obtain rfl : r = r' := Option.some.inj hr'
      exact ⟨le_refl _, le_refl _, fun _ => rfl⟩
    · rw [heq] at hr'
      have hfrv : findRound s.rounds gs.currentRound = some rv :=
        findRound_of_status hWF hrv
      have hnumv : rv.roundNumber = gs.currentRound :=
        (findRoundWithStatus_spec hrv).2.1
      have hstv : rv.status = RoundStatus.voting :=
        (findRoundWithStatus_spec hrv).2.2
      have hfrv' : findRound s.rounds rv.roundNumber = some rv := by
        rw [hnumv]; exact hfrv
      by_cases hn : n = rv.roundNumber
      · subst hn
        obtain rfl : rv = r := Option.some.inj (hfrv'.symm.trans hr)
        have hupd : findRound (saveRound s.rounds (voteUpdatedRound rv w c))
            rv.roundNumber = some (voteUpdatedRound rv w c) :=
          findRound_saveRound_update hfrv' rfl
        obtain rfl : voteUpdatedRound rv w c = r' :=
          Option.some.inj (hupd.symm.trans hr')
        exact ⟨(tally_le_bump rv.votes (parseColor c)).1,
          (tally_le_bump rv.votes (parseColor c)).2,
          fun h => absurd hstv h⟩
      · rw [findRound_saveRound_ne
          (show n ≠ (voteUpdatedRound rv w c).roundNumber from hn)] at hr'
        obtain rfl : r = r' := Option.some.inj (hr.symm.trans hr')
        exact ⟨le_refl _, le_refl _, fun _ => rfl⟩
  · intro gs r hgs hfind hst
    refine ⟨?_, rfl⟩
    rw [ensureCurrentRound1_reset hgs hfind hst]
    exact findRound_saveRound_update hfind (findRound_spec hfind).2

/-- Game state used for the C3 witness. -/
def gsC3w : GameState :=
  { currentRound := 1, totalPrizesGiven := 0, lastWinner := none,
    lastPrizeAmount := 0, totalRoundsPlayed := 0 }

/-- The voting round of the C3 witness before the vote. -/
def roundC3w : Round :=
  { roundNumber := 1, status := .voting, votes := ⟨0, 0⟩, participants := [],
    winningColor := none, winner := none, prizeAmount := 0 }

/-- The same round after wallet `"X"` voted red. -/
def roundC3w' : Round :=
  { roundNumber := 1, status := .voting, votes := ⟨1, 0⟩,
    participants := ["X"], winningColor := none, winner := none,
    prizeAmount := 0 }

/-- A fresh voting-round state with verified wallet `"X"`. -/
def stateC3w : ServerState :=
  { gameState := some gsC3w, rounds := [roundC3w], votes := [],
    verified := ["X"], serverTimeLeft := 30 }

/-- C3 (witness): the monotonicity theorem applied to a concrete successful
vote, where the red tally grows from 0 to 1. -/
theorem castVote_tally_monotone_witness :
    roundC3w.votes.red ≤ roundC3w'.votes.red
    ∧ roundC3w.votes.black ≤ roundC3w'.votes.black
    ∧ (¬ roundC3w.status = RoundStatus.voting → roundC3w' = roundC3w) :=
  (castVote_tally_monotone stateC3w "X" "red" 1 (by decide)).1
    roundC3w roundC3w' (by decide) (by decide)

/-! ## Claim C6: the countdown is non-negative and non-increasing -/

/-- C6: every countdown tick of the source
(`serverTimeLeft`/`phaseTimeLeft = Math.max(0, t - 1)`, identical in both
variants) keeps the remaining time non-negative and non-increasing, clamped
at 0, so within a phase the value never grows and never becomes negative
until a transition resets it. -/
theorem countdownTick_nonneg_nonincreasing :
    ∀ t : Int, 0 ≤ t →
    0 ≤ countdownTick t ∧ countdownTick t ≤ t
    ∧ countdownTick (countdownTick t) ≤ countdownTick t := by
  intro t ht
  simp only [countdownTick]
  exact ⟨le_max_left 0 (t - 1), max_le ht (by omega),
    max_le (le_max_left 0 (t - 1)) (sub_le_self _ zero_le_one)⟩

/-- C6 (witness): the tick theorem at the concrete value 5. -/
theorem countdownTick_nonneg_nonincreasing_witness :
    0 ≤ (5 : Int)
    ∧ (0 ≤ countdownTick 5 ∧ countdownTick 5 ≤ 5
       ∧ countdownTick (countdownTick 5) ≤ countdownTick 5) :=
  ⟨by decide, countdownTick_nonneg_nonincreasing 5 (by decide)⟩

/-! ## Claim C7: duplicate votes are rejected with no state change -/

/-- C7: a voter with a recorded vote in the current round has any further
well-formed vote request rejected with the duplicate reason carrying the
prior choice, and the server state (tally, participants, recorded votes,
everything) is exactly as before; variant 2 behaves identically during its
voting phase. -/
theorem castVote_duplicate_rejected_no_change :
    ∀ (s : ServerState) (w c : String) (gs : GameState) (v : Vote),
    validVotePayload w c → w ∈ s.verified → s.gameState = some gs →
    findVote s.votes w (toString gs.currentRound) = some v →
    castVote1 s w c = (s, .rejected (.alreadyVoted v.color))
    ∧ castVote2 Phase2.voting s w c
        = (s, .rejected (.alreadyVoted v.color)) := by
  intro s w c gs v hv hw hgs hdup
  have h1 := castVote1_duplicate hv hw hgs hdup
  refine ⟨h1, ?_⟩
  rw [show castVote2 Phase2.voting s w c = castVote1 s w c by simp [castVote2]]
  exact h1

/-- Game state used for the C7 witness. -/
def gsC7 : GameState :=
  { currentRound := 1, totalPrizesGiven := 0, lastWinner := none,
    lastPrizeAmount := 0, totalRoundsPlayed := 0 }

/-- A voting-round state in which wallet `"X"` already voted red. -/
def stateC7 : ServerState :=
  { gameState := some gsC7,
    rounds := [{ roundNumber := 1, status := .voting, votes := ⟨1, 0⟩,
                 participants := ["X"], winningColor := none, winner := none,
                 prizeAmount := 0 }],
    votes := [{ walletAddress := "X", roundId := "1", color := .red }],
    verified := ["X"],
    serverTimeLeft := 20 }

/-- C7 (witness): wallet `"X"` attempts a second vote (black) after voting
red; the request is rejected with the prior choice red and the state is
unchanged. -/
theorem castVote_duplicate_rejected_no_change_witness :
    castVote1 stateC7 "X" "black"
      = (stateC7, .rejected (.alreadyVoted Color.red))
    ∧ castVote2 Phase2.voting stateC7 "X" "black"
      = (stateC7, .rejected (.alreadyVoted Color.red)) :=
  castVote_duplicate_rejected_no_change stateC7 "X" "black" gsC7
    { walletAddress := "X", roundId := "1", color := .red }
    (by decide) (by decide) rfl (by decide)

/-! ## Claim C8: the category draw is fair and tally-independent -/

/-- C8: `Math.random() < 0.5 ? "red" : "black"` draws each category with
probability one half — on every uniform grid `{i / 2n : i < 2n}` of draw
values exactly `n` draws yield red and exactly `n` yield black — and the
chosen category depends only on the draw, never on the tally: two rounds
with the same draw but arbitrary different tallies get the same winning
color. -/
theorem chooseCategory_uniform_tally_independent :
    (∀ n : ℕ, 0 < n →
      ((Finset.range (2 * n)).filter
          (fun i : ℕ => chooseCategory ((i : ℚ) / ((2 * n : ℕ) : ℚ))
            = Color.red)).card = n
      ∧ ((Finset.range (2 * n)).filter
          (fun i : ℕ => chooseCategory ((i : ℚ) / ((2 * n : ℕ) : ℚ))
            = Color.black)).card = n)
    ∧ (∀ (u : ℚ) (r : Round) (t t' : Tally),
        (votingToSpinning { r with votes := t } u).winningColor
          = (votingToSpinning { r with votes := t' } u).winningColor) := by
  constructor
  · intro n hn
    have h2n : (0 : ℚ) < ((2 * n : ℕ) : ℚ) := by
      have h : 0 < 2 * n := by omega
      exact_mod_cast h
    have hiff : ∀ i : ℕ,
        ((i : ℚ) / ((2 * n : ℕ) : ℚ) < 1 / 2 ↔ i < n) := by
      intro i
      rw [div_lt_iff₀ h2n]
      push_cast
      rw [show (1 : ℚ) / 2 * (2 * (n : ℚ)) = (n : ℚ) by ring]
      exact_mod_cast Iff.rfl
    have hred : ∀ i : ℕ,
        (chooseCategory ((i : ℚ) / ((2 * n : ℕ) : ℚ)) = Color.red
          ↔ i < n) := by
      intro i
      unfold chooseCategory
      constructor
      · intro hc
        by_cases hu : (i : ℚ) / ((2 * n : ℕ) : ℚ) < 1 / 2
        · exact (hiff i).mp hu
        · rw [if_neg hu] at hc
          exact absurd hc (by decide)
      · intro hi
        rw [if_pos ((hiff i).mpr hi)]
    have hblack : ∀ i : ℕ,
        (chooseCategory ((i : ℚ) / ((2 * n : ℕ) : ℚ)) = Color.black
          ↔ n ≤ i) := by
      intro i
      unfold chooseCategory
      constructor
      · intro hc
        by_cases hu : (i : ℚ) / ((2 * n : ℕ) : ℚ) < 1 / 2
        · rw [if_pos hu] at hc
          exact absurd hc (by decide)
        · have : ¬ i < n := fun hi => hu ((hiff i).mpr hi)
          omega
      · intro hi
        rw [if_neg (fun hu => absurd ((hiff i).mp hu) (by omega))]
    constructor
    · have hset : (Finset.range (2 * n)).filter
          (fun i : ℕ => chooseCategory ((i : ℚ) / ((2 * n : ℕ) : ℚ))
            = Color.red) = Finset.range n := by
        ext i
        simp only [Finset.mem_filter, Finset.mem_range]
        constructor
        · rintro ⟨_, hc⟩
          exact (hred i).mp hc
        · intro hi
          exact ⟨by omega, (hred i).mpr hi⟩
      rw [hset, Finset.card_range]
    · have hset : (Finset.range (2 * n)).filter
          (fun i : ℕ => chooseCategory ((i : ℚ) / ((2 * n : ℕ) : ℚ))
            = Color.black) = Finset.Ico n (2 * n) := by
        ext i
        simp only [Finset.mem_filter, Finset.mem_range, Finset.mem_Ico]
        constructor
        · rintro ⟨h2, hc⟩
          exact ⟨(hblack i).mp hc, h2⟩
        · rintro ⟨h1, h2⟩
          exact ⟨h2, (hblack i).mpr h1⟩
      rw [hset, Nat.card_Ico]
      omega
  · intro u r t t'
    rfl

/-- C8 (witness): the fairness statement at the two-point grid `{0, 1/2}`:
one draw yields red and one yields black. -/
theorem chooseCategory_uniform_tally_independent_witness :
    0 < 1
    ∧ (((Finset.range (2 * 1)).filter
          (fun i : ℕ => chooseCategory ((i : ℚ) / ((2 * 1 : ℕ) : ℚ))
            = Color.red)).card = 1
       ∧ ((Finset.range (2 * 1)).filter
          (fun i : ℕ => chooseCategory ((i : ℚ) / ((2 * 1 : ℕ) : ℚ))
            = Color.black)).card = 1) :=
  ⟨by decide, chooseCategory_uniform_tally_independent.1 1 (by decide)⟩

/-! ## Claim C1: the winner comes from the chosen category -/

/-- Game state used for the C1 counterexample. -/
def gsC1 : GameState :=
  { currentRound := 1, totalPrizesGiven := 0, lastWinner := none,
    lastPrizeAmount := 0, totalRoundsPlayed := 0 }

/-- A spinning round whose winning color is red while the only vote is
black: the eligible set is empty. -/
def stateC1 : ServerState :=
  { gameState := some gsC1,
    rounds := [{ roundNumber := 1, status := .spinning, votes := ⟨0, 1⟩,
                 participants := ["Y"], winningColor := some .red,
                 winner := none, prizeAmount := 0 }],
    votes := [{ walletAddress := "Y", roundId := "1", color := .black }],
    verified := ["Y"],
    serverTimeLeft := 0 }

/-- C1 (counterexample): the claim says an empty eligible set makes the
winner the value "none"; completing `stateC1` (no red vote, red chosen)
instead stores the absent value (JS `null`), not the string `"none"`. -/
theorem selectWinner_empty_not_none_string :
    (findRound (selectWinner1 stateC1 0).rounds 1).map Round.winner
      = some none
    ∧ (findRound (selectWinner1 stateC1 0).rounds 1).map Round.winner
      ≠ some (some "none") := by
  decide

/-- C1 (amended): the winner of a completed round is computed from exactly
the round's votes whose category equals the chosen category; if that set is
empty no winner is stored (the winner is absent/null rather than the string
"none"), and otherwise the winner is the wallet of one of those votes — in
particular never a voter of the losing category. -/
theorem selectWinner_from_eligible :
    ∀ (s : ServerState) (draw : Nat) (gs : GameState) (r : Round),
    roundsWF s.rounds → s.gameState = some gs →
    findRoundWithStatus s.rounds gs.currentRound RoundStatus.spinning
      = some r →
    ∃ r', findRound (selectWinner1 s draw).rounds gs.currentRound = some r'
      ∧ (eligibleVotes s.votes r = [] → r'.winner = none)
      ∧ (eligibleVotes s.votes r ≠ [] →
          ∃ v ∈ eligibleVotes s.votes r,
            r'.winner = some v.walletAddress
            ∧ some v.color = r.winningColor
            ∧ v.roundId = toString r.roundNumber) := by
  intro s draw gs r hWF hgs hfind
  have hfr := findRound_of_status hWF hfind
  have hnum : r.roundNumber = gs.currentRound :=
    (findRoundWithStatus_spec hfind).2.1
  rw [selectWinner1_eq hgs hfind]
  refine ⟨completeRound r (pickWinner (eligibleVotes s.votes r) draw),
    findRound_saveRound_update hfr hnum, ?_, ?_⟩
  · intro hnil
    show pickWinner (eligibleVotes s.votes r) draw = none
    rw [hnil]
    exact pickWinner_nil draw
  · intro hne
    obtain ⟨v, hv, hpick⟩ := pickWinner_mem draw hne
    have hmemf := List.mem_filter.mp hv
    exact ⟨v, hv, hpick, (of_decide_eq_true hmemf.2).2,
      (of_decide_eq_true hmemf.2).1⟩

/-- Game state used for the C1 witness. -/
def gsC1w : GameState :=
  { currentRound := 1, totalPrizesGiven := 0, lastWinner := none,
    lastPrizeAmount := 0, totalRoundsPlayed := 0 }

/-- The spinning round of the C1 witness: one red vote, red chosen. -/
def roundC1w : Round :=
  { roundNumber := 1, status := .spinning, votes := ⟨1, 0⟩,
    participants := ["X"], winningColor := some .red, winner := none,
    prizeAmount := 0 }

/-- State for the C1 witness. -/
def stateC1w : ServerState :=
  { gameState := some gsC1w, rounds := [roundC1w],
    votes := [{ walletAddress := "X", roundId := "1", color := .red }],
    verified := ["X"], serverTimeLeft := 0 }

/-- C1 (witness): the amended theorem at a concrete round with one eligible
red vote. -/
theorem selectWinner_from_eligible_witness :
    roundsWF stateC1w.rounds
    ∧ ∃ r', findRound (selectWinner1 stateC1w 0).rounds gsC1w.currentRound
          = some r'
      ∧ (eligibleVotes stateC1w.votes roundC1w = [] → r'.winner = none)
      ∧ (eligibleVotes stateC1w.votes roundC1w ≠ [] →
          ∃ v ∈ eligibleVotes stateC1w.votes roundC1w,
            r'.winner = some v.walletAddress
            ∧ some v.color = roundC1w.winningColor
            ∧ v.roundId = toString roundC1w.roundNumber) :=
  ⟨by decide, selectWinner_from_eligible stateC1w 0 gsC1w roundC1w
    (by decide) rfl (by decide)⟩

/-! ## Claim C5: the game-state update at round completion -/

/-- Game state used for the C5 scenarios. -/
def gsC5 : GameState :=
  { currentRound := 1, totalPrizesGiven := 0, lastWinner := none,
    lastPrizeAmount := 0, totalRoundsPlayed := 0 }

/-- The spinning round of the C5 scenarios, with prize 5 set by the admin. -/
def roundC5 : Round :=
  { roundNumber := 1, status := .spinning, votes := ⟨1, 0⟩,
    participants := ["X"], winningColor := some .red, winner := none,
    prizeAmount := 5 }

/-- State for the C5 scenarios. -/
def stateC5 : ServerState :=
  { gameState := some gsC5, rounds := [roundC5],
    votes := [{ walletAddress := "X", roundId := "1", color := .red }],
    verified := ["X"], serverTimeLeft := 0 }

/-- C5 (counterexample): the claim says the completion transition sets
`lastPrizeAmount` to the completed round's prize.  Completing a round whose
prize is 5 leaves `lastPrizeAmount` at 0: the transition never writes it
(only the admin mark-paid route does). -/
theorem selectWinner_leaves_lastPrizeAmount :
    (selectWinner1 stateC5 0).gameState.map GameState.lastPrizeAmount
      = some 0
    ∧ (findRound stateC5.rounds 1).map Round.prizeAmount = some 5
    ∧ some (0 : Nat) ≠ some (5 : Nat) := by
  decide

/-- C5 (amended): at every spinning-to-completed transition the winner is
selected and stored, `currentRound` is incremented by 1,
`totalRoundsPlayed` is incremented by 1 and `lastWinner` is set to the
completed round's winner; `lastPrizeAmount` is left unchanged (it is only
written by mark-paid); the next round is then created in the Voting
status by `startNextRound`. -/
theorem selectWinner_updates_gameState :
    ∀ (s : ServerState) (draw : Nat) (gs : GameState) (r : Round),
    roundsWF s.rounds → s.gameState = some gs →
    findRoundWithStatus s.rounds gs.currentRound RoundStatus.spinning
      = some r →
    ∃ gs' r', (selectWinner1 s draw).gameState = some gs'
      ∧ gs'.currentRound = gs.currentRound + 1
      ∧ gs'.totalRoundsPlayed = gs.totalRoundsPlayed + 1
      ∧ findRound (selectWinner1 s draw).rounds gs.currentRound = some r'
      ∧ r'.status = RoundStatus.completed
      ∧ gs'.lastWinner = r'.winner
      ∧ gs'.lastPrizeAmount = gs.lastPrizeAmount
      ∧ ∃ r2, findRound (startNextRound1 (selectWinner1 s draw)).rounds
            (gs.currentRound + 1) = some r2
          ∧ r2.status = RoundStatus.voting := by
  intro s draw gs r hWF hgs hfind
  have hfr := findRound_of_status hWF hfind
  have hnum : r.roundNumber = gs.currentRound :=
    (findRoundWithStatus_spec hfind).2.1
  refine ⟨completeGameState gs (pickWinner (eligibleVotes s.votes r) draw),
    completeRound r (pickWinner (eligibleVotes s.votes r) draw),
    ?_, rfl, rfl, ?_, rfl, rfl, rfl, ?_⟩
  · rw [selectWinner1_eq hgs hfind]
  · rw [selectWinner1_eq hgs hfind]
    exact findRound_saveRound_update hfr hnum
  · have hgs' : (selectWinner1 s draw).gameState
        = some (completeGameState gs
            (pickWinner (eligibleVotes s.votes r) draw)) := by
      rw [selectWinner1_eq hgs hfind]
    obtain ⟨r2, h2, hst2⟩ := ensureCurrentRound1_voting hgs'
    exact ⟨r2, h2, hst2⟩

/-- C5 (witness): the amended theorem at the concrete prize-5 round. -/
theorem selectWinner_updates_gameState_witness :
    roundsWF stateC5.rounds
    ∧ ∃ gs' r', (selectWinner1 stateC5 0).gameState = some gs'
      ∧ gs'.currentRound = gsC5.currentRound + 1
      ∧ gs'.totalRoundsPlayed = gsC5.totalRoundsPlayed + 1
      ∧ findRound (selectWinner1 stateC5 0).rounds gsC5.currentRound
          = some r'
      ∧ r'.status = RoundStatus.completed
      ∧ gs'.lastWinner = r'.winner
      ∧ gs'.lastPrizeAmount = gsC5.lastPrizeAmount
      ∧ ∃ r2, findRound (startNextRound1 (selectWinner1 stateC5 0)).rounds
            (gsC5.currentRound + 1) = some r2
          ∧ r2.status = RoundStatus.voting :=
  ⟨by decide, selectWinner_updates_gameState stateC5 0 gsC5 roundC5
    (by decide) rfl (by decide)⟩

/-! ## Claim C9: an absent winner is stored and reported as null -/

/-- Game state used for the C9 witness. -/
def gsC9 : GameState :=
  { currentRound := 1, totalPrizesGiven := 0, lastWinner := none,
    lastPrizeAmount := 0, totalRoundsPlayed := 0 }

/-- The spinning round of the C9 scenario: red chosen, only a black vote. -/
def roundC9 : Round :=
  { roundNumber := 1, status := .spinning, votes := ⟨0, 1⟩,
    participants := ["Y"], winningColor := some .red, winner := none,
    prizeAmount := 0 }

/-- State for the C9 scenario. -/
def stateC9 : ServerState :=
  { gameState := some gsC9, rounds := [roundC9],
    votes := [{ walletAddress := "Y", roundId := "1", color := .black }],
    verified := ["Y"], serverTimeLeft := 0 }

/-- C9: when a completed round has no vote for the chosen category, the
stored winner and `lastWinner` are the absent value (JS `null`), not the
string `"none"`, and both the broadcast snapshot and the round-history view
report the winner as that absent value. -/
theorem selectWinner_null_winner_reported :
    ∀ (s : ServerState) (draw : Nat) (gs : GameState) (r : Round),
    roundsWF s.rounds → s.gameState = some gs →
    findRoundWithStatus s.rounds gs.currentRound RoundStatus.spinning
      = some r →
    eligibleVotes s.votes r = [] →
    ∃ r' gs' snap,
      findRound (selectWinner1 s draw).rounds gs.currentRound = some r'
      ∧ r'.winner = none
      ∧ r'.winner ≠ some "none"
      ∧ (selectWinner1 s draw).gameState = some gs'
      ∧ gs'.lastWinner = none
      ∧ getCurrentGameData (selectWinner1 s draw) = some snap
      ∧ snap.gameState.lastWinner = none
      ∧ r' ∈ historyRounds (selectWinner1 s draw) := by
  intro s draw gs r hWF hgs hfind hnil
  have hfr := findRound_of_status hWF hfind
  have hnum : r.roundNumber = gs.currentRound :=
    (findRoundWithStatus_spec hfind).2.1
  have hmem : r ∈ s.rounds := (findRoundWithStatus_spec hfind).1
  have hwin : pickWinner (eligibleVotes s.votes r) draw = none := by
    rw [hnil]
    exact pickWinner_nil draw
  have hgs' : (selectWinner1 s draw).gameState
      = some (completeGameState gs none) := by
    rw [selectWinner1_eq hgs hfind, hwin]
  obtain ⟨snap, hsnap, hlast⟩ := getCurrentGameData_lastWinner hgs'
  refine ⟨completeRound r none, completeGameState gs none, snap,
    ?_, rfl, by simp [completeRound], hgs', rfl, hsnap, hlast, ?_⟩
  · rw [selectWinner1_eq hgs hfind, hwin]
    exact findRound_saveRound_update hfr hnum
  · rw [selectWinner1_eq hgs hfind, hwin]
    simp only [historyRounds]
    exact List.mem_filter.mpr ⟨mem_saveRound_self hmem rfl,
      decide_eq_true rfl⟩

/-- C9 (witness): the theorem at the concrete no-eligible-votes round. -/
theorem selectWinner_null_winner_reported_witness :
    roundsWF stateC9.rounds
    ∧ ∃ r' gs' snap,
      findRound (selectWinner1 stateC9 0).rounds gsC9.currentRound = some r'
      ∧ r'.winner = none
      ∧ r'.winner ≠ some "none"
      ∧ (selectWinner1 stateC9 0).gameState = some gs'
      ∧ gs'.lastWinner = none
      ∧ getCurrentGameData (selectWinner1 stateC9 0) = some snap
      ∧ snap.gameState.lastWinner = none
      ∧ r' ∈ historyRounds (selectWinner1 stateC9 0) :=
  ⟨by decide, selectWinner_null_winner_reported stateC9 0 gsC9 roundC9
    (by decide) rfl (by decide) (by decide)⟩

/-! ## Claim C4: startEngine is idempotent -/

/-- Game state used for the C4 counterexample. -/
def gsC4 : GameState :=
  { currentRound := 1, totalPrizesGiven := 0, lastWinner := none,
    lastPrizeAmount := 0, totalRoundsPlayed := 0 }

/-- A state mid-voting-window: the active round exists in voting status
and 17 of the 30 seconds remain. -/
def stateC4 : ServerState :=
  { gameState := some gsC4,
    rounds := [{ roundNumber := 1, status := .voting, votes := ⟨0, 0⟩,
                 participants := [], winningColor := none, winner := none,
                 prizeAmount := 0 }],
    votes := [], verified := [], serverTimeLeft := 17 }

/-- C4 (counterexample): the claim says a second `startEngine()` resumes
the active round's remaining time budget.  With the active voting round at
17 seconds remaining, calling the engine start again keeps the round
(no second round is created) but resets the countdown to the full
30-second window instead of resuming the 17 seconds. -/
theorem startEngine_resets_countdown :
    stateC4.serverTimeLeft = 17
    ∧ (findRound stateC4.rounds 1).map Round.status
        = some RoundStatus.voting
    ∧ (initializeGameState1 stateC4).rounds = stateC4.rounds
    ∧ (initializeGameState1 stateC4).serverTimeLeft = 30
    ∧ (17 : Int) ≠ 30 := by
  decide

/-- C4 (amended): `startEngine` (`initializeGameState`) is idempotent as a
state transformer — a second call in succession changes nothing, so no
second round is created and no extra transition happens; when no game
state and no rounds exist it creates round 1 in Voting; after any call the
current round exists in Voting — but the countdown is always restarted at
the full window rather than resuming the remaining time budget. -/
theorem startEngine_idempotent :
    ∀ s : ServerState,
    initializeGameState1 (initializeGameState1 s) = initializeGameState1 s
    ∧ (s.gameState = none → s.rounds = [] →
        (initializeGameState1 s).gameState = some initialGameState
        ∧ (initializeGameState1 s).rounds = [newRound 1])
    ∧ (∃ gs r, (initializeGameState1 s).gameState = some gs
        ∧ findRound (initializeGameState1 s).rounds gs.currentRound = some r
        ∧ r.status = RoundStatus.voting)
    ∧ (initializeGameState1 s).serverTimeLeft = ROUND_DURATION_SECS := by
  intro s
  obtain ⟨gs, r, h1, h2, h3, h4⟩ := initializeGameState1_spec s
  exact ⟨initializeGameState1_idem s,
    fun hn hr => initializeGameState1_fresh hn hr,
    ⟨gs, r, h1, h2, h3⟩, h4⟩

/-- The empty pre-start state for the C4 witness. -/
def stateC4w : ServerState :=
  { gameState := none, rounds := [], votes := [], verified := [],
    serverTimeLeft := 0 }

/-- C4 (witness): starting the engine on the empty state creates the game
state and round 1 in Voting. -/
theorem startEngine_idempotent_witness :
    (initializeGameState1 stateC4w).gameState = some initialGameState
    ∧ (initializeGameState1 stateC4w).rounds = [newRound 1] :=
  (startEngine_idempotent stateC4w).2.1 rfl rfl

/-! ## Claim C10: mark-paid accumulates with no already-paid guard -/

/-- Game state used for the C10 witness. -/
def gsC10 : GameState :=
  { currentRound := 2, totalPrizesGiven := 0, lastWinner := some "X",
    lastPrizeAmount := 0, totalRoundsPlayed := 1 }

/-- A completed round with winner `"X"` and prize 4. -/
def roundC10 : Round :=
  { roundNumber := 1, status := .completed, votes := ⟨1, 0⟩,
    participants := ["X"], winningColor := some .red, winner := some "X",
    prizeAmount := 4 }

/-- State for the C10 witness. -/
def stateC10 : ServerState :=
  { gameState := some gsC10, rounds := [roundC10],
    votes := [{ walletAddress := "X", roundId := "1", color := .red }],
    verified := ["X"], serverTimeLeft := 30 }

/-- C10: a mark-paid request fails with no state change exactly when the
round is missing or has no recorded winner (so a round with an absent
winner can never be marked paid); on success it adds the round's prize to
`totalPrizesGiven` and overwrites `lastPrizeAmount`, with no already-paid
guard: `n` successful calls for the same round add `n` times the prize.
The hypothesis `w ≠ ""` mirrors that recorded winners are wallet addresses
of accepted votes, which are never the empty string (the route rejects a
falsy `walletAddress`), while the code's guard tests JS truthiness. -/
theorem markPrizePaid_spec :
    ∀ (s : ServerState) (rn n : Nat),
    (findRound s.rounds rn = none → markPrizePaid s rn = (s, .notFound))
    ∧ (∀ r, findRound s.rounds rn = some r → r.winner = none →
        markPrizePaid s rn = (s, .notFound))
    ∧ (∀ gs r w, s.gameState = some gs → findRound s.rounds rn = some r →
        r.winner = some w → w ≠ "" →
        markPrizePaid s rn
          = ({ s with gameState := some (paidGameState gs r) },
             .ok w r.prizeAmount)
        ∧ (paidGameState gs r).totalPrizesGiven
            = gs.totalPrizesGiven + r.prizeAmount
        ∧ (paidGameState gs r).lastPrizeAmount = r.prizeAmount)
    ∧ (∀ gs r w, s.gameState = some gs → findRound s.rounds rn = some r →
        r.winner = some w → w ≠ "" →
        ∃ gsN, (markPaidIter n s rn).gameState = some gsN
          ∧ gsN.totalPrizesGiven = gs.totalPrizesGiven + n * r.prizeAmount
          ∧ (0 < n → gsN.lastPrizeAmount = r.prizeAmount)) := by
  intro s rn n
  refine ⟨markPrizePaid_noRound, fun r hr hw => markPrizePaid_noWinner hr hw,
    ?_, ?_⟩
  · intro gs r w hgs hr hw hne
    exact ⟨markPrizePaid_success hgs hr hw hne, rfl, rfl⟩
  · intro gs r w hgs hr hw hne
    obtain ⟨gsN, a1, a2, _, a4⟩ := markPaidIter_total n hgs hr hw hne
    exact ⟨gsN, a1, a2, a4⟩

/-- C10 (witness): paying out round 1 (prize 4) once from `stateC10`. -/
theorem markPrizePaid_spec_witness :
    markPrizePaid stateC10 1
      = ({ stateC10 with gameState := some (paidGameState gsC10 roundC10) },
         .ok "X" roundC10.prizeAmount)
    ∧ (paidGameState gsC10 roundC10).totalPrizesGiven
        = gsC10.totalPrizesGiven + roundC10.prizeAmount
    ∧ (paidGameState gsC10 roundC10).lastPrizeAmount
        = roundC10.prizeAmount :=
  (markPrizePaid_spec stateC10 1 3).2.2.1 gsC10 roundC10 "X" rfl
    (by decide) rfl (by decide)

end RedOrBlack
